import Mathlib

/-!
Verification of the Widevine CDM core of the VT repository
(vinetrimmer/utils/Widevine/{cdm,session,device,key}.py), shallowly
embedded in Lean 4.

Conventions of the embedding:
* byte strings are `List Nat` (`Bytes`), one entry per byte;
* external cryptographic primitives (pycryptodome: AES-CMAC, HMAC-SHA256,
  RSA-OAEP, AES-CBC, PKCS5 padding, RSA-PSS) and the protobuf / pymp4
  codecs are uninterpreted function parameters bundled in `Ext`: every
  theorem quantifies over them, so it holds for any implementation;
* Python exceptions become `Except CdmError`; an access to an attribute
  that was never assigned is the distinguished `CdmError.attributeError`;
* stateful methods return the mutated object next to the result, so that
  the state left behind by a failing call remains observable.
-/

namespace VT

/-- Byte strings, one `Nat` per byte. -/
abbrev Bytes := List Nat

/-- Bytes of an ASCII string (used for bytes literals and utf-8 encoding
of ASCII enum names in the Python source). -/
def asciiBytes (s : String) : Bytes :=
  s.toList.map Char.toNat

/-- Modelled from the spec: the repository's protos package
(vinetrimmer/utils/Widevine/protos/widevine_pb2) is not under src/, so the
KeyContainer KeyType enum is modelled from the spec and the enum-name
strings the source code compares against (device.py uses the names
CONTENT and OPERATOR_SESSION; SIGNING and KEY_CONTROL are the remaining
vendor key types). -/
inductive KeyType where
  | signing
  | content
  | keyControl
  | operatorSession
deriving DecidableEq, Repr

/-- The enum-name lookup performed by KeyType.Name in the source. -/
def KeyType.name : KeyType → String
  | .signing => "SIGNING"
  | .content => "CONTENT"
  | .keyControl => "KEY_CONTROL"
  | .operatorSession => "OPERATOR_SESSION"

/-- Modelled from the spec: a decoded WidevineCencHeader protobuf message
(opaque to every operation the claims touch; `data` stands for its decoded
content). -/
structure CencHeader where
  data : Bytes
deriving DecidableEq, Repr

/-- The value stored in Session.cenc_header: the verbatim pssh bytes when
the session is raw, else the decoded CencHeader message (session.py:19). -/
inductive CencVal where
  | rawBytes (b : Bytes)
  | parsed (h : CencHeader)
deriving DecidableEq, Repr

/-- A parsed mp4 pssh box (pymp4 Box.parse result); only its init_data is
read by the source (session.py:56). -/
structure PsshBox where
  init_data : Bytes
deriving DecidableEq, Repr

/-- EncryptedClientIdentification message built in the privacy-mode branch
of get_license_challenge (device.py:219-233). -/
structure EncryptedClientIdentification where
  serviceId : Bytes
  serviceCertificateSerialNumber : Bytes
  encryptedClientId : Bytes
  encryptedClientIdIv : Bytes
  encryptedPrivacyKey : Bytes
deriving DecidableEq, Repr

/-- The LicenseRequest message (the Msg field of a SignedLicenseRequest).
The protos package is absent from src/, so enum-valued fields store the
enum NAME string that device.py passes to protobuf's Value lookup
(device.py:198,206,208,210); the numeric mapping lives in the missing
generated code. The SignedLicenseRequestRaw variant differs from
SignedLicenseRequest only in the type of the CencId.Pssh field, which
`CencVal` already distinguishes, so one structure covers both. -/
structure LicenseRequest where
  cencIdPssh : CencVal
  licenseTypeName : String
  requestId : Bytes
  requestTypeName : String
  requestTime : Nat
  protocolVersionName : String
  keyControlNonce : Option Nat
  clientId : Option Bytes
  encryptedClientId : Option EncryptedClientIdentification
deriving DecidableEq, Repr

/-- SignedLicenseRequest / SignedLicenseRequestRaw: the message plus its
RSA-PSS signature. -/
structure SignedLicenseRequest where
  msg : LicenseRequest
  signature : Bytes
deriving DecidableEq, Repr

/-- A KeyContainer of a License message. `operatorSessionKeyPermissions`
models the protobuf ListFields view of the _OperatorSessionKeyPermissions
submessage: the (field-name, value) pairs of its set fields, in field
order. -/
structure KeyContainer where
  id : Bytes
  type : KeyType
  iv : Bytes
  key : Bytes
  operatorSessionKeyPermissions : List (String × Nat)
deriving DecidableEq, Repr

/-- The License message: its repeated Key field. -/
structure License where
  key : List KeyContainer
deriving DecidableEq, Repr

/-- SignedLicense: license message, wrapped session key and HMAC signature. -/
structure SignedLicense where
  msg : License
  sessionKey : Bytes
  signature : Bytes
deriving DecidableEq, Repr

/-- SignedMessage (carrier of a service certificate). -/
structure SignedMessage where
  msg : Bytes
deriving DecidableEq, Repr

/-- SignedDeviceCertificate; only the _DeviceCertificate fields read by
device.py:222-232 are modelled. -/
structure SignedDeviceCertificate where
  serviceId : Bytes
  serialNumber : Bytes
  publicKey : Bytes
deriving DecidableEq, Repr

/-- Key (key.py:6-11): kid, type name, raw key bytes, permission names.
The constructor's `permissions or []` normalization maps an empty list to
itself, so the field is stored as given. -/
structure Key where
  kid : Bytes
  type : String
  key : Bytes
  permissions : List String
deriving DecidableEq, Repr

/-- The typed failures of the core, one per distinct raise site.  The
Python source raises ValueError everywhere; the constructors record which
raise site (or uncaught exception class) produced the failure, matching
the spec's error taxonomy where the source implements it.
`attributeError` is Python's AttributeError from reading an attribute that
`__init__` annotated but never assigned; `malformedPssh` is the uncaught
construct/protobuf decode error escaping Session.parse_pssh_box. -/
inductive CdmError where
  | invalidInput
  | missingCredential
  | malformedCertificate
  | malformedResponse
  | protocolStateError
  | signatureMismatch
  | unknownSession
  | attributeError
  | malformedPssh
  | missingCertificate
deriving DecidableEq, Repr

/-- The external primitives the core calls: pycryptodome ciphers/hashes,
and the protobuf / pymp4 codecs from the repository's protos package that
is absent from src/.  All are uninterpreted parameters; theorems quantify
over them. -/
structure Ext where
  cmac : Bytes → Bytes → Bytes
  hmacSHA256 : Bytes → Bytes → Bytes
  oaepDecrypt : Bytes → Bytes
  oaepEncrypt : Bytes → Bytes → Bytes
  aesCbcDecrypt : Bytes → Bytes → Bytes → Bytes
  aesCbcEncrypt : Bytes → Bytes → Bytes → Bytes
  pad16 : Bytes → Bytes
  unpad16 : Bytes → Bytes
  pssSign : Bytes → Bytes
  serializeLicenseRequest : LicenseRequest → Bytes
  serializeSignedLicenseRequest : SignedLicenseRequest → Bytes
  serializeLicense : License → Bytes
  parseSignedLicense : Bytes → Option SignedLicense
  parseSignedMessage : Bytes → Option SignedMessage
  parseSignedDeviceCertificate : Bytes → Option SignedDeviceCertificate
  parsePsshBox : Bytes → Option PsshBox
  parseCencHeader : Bytes → Option CencHeader

/-- Session state (session.py:12-32).  `derived_keys` is a dict with the
three fixed keys enc/auth_1/auth_2, modelled as three fields.
`licenseRequest = none` models the attribute being UNSET: session.py:28 is
a bare annotation that never assigns it, so a fresh session has no such
attribute at all. -/
structure Session where
  sessionId : Bytes
  pssh : Bytes
  cencHeader : CencVal
  offline : Bool
  raw : Bool
  sessionKey : Option Bytes
  derivedEnc : Option Bytes
  derivedAuth1 : Option Bytes
  derivedAuth2 : Option Bytes
  licenseRequest : Option SignedLicenseRequest
  signedLicense : Option SignedLicense
  signedDeviceCertificate : Option SignedDeviceCertificate
  privacyMode : Bool
  keys : List Key
deriving DecidableEq, Repr

/-- Session.parse_pssh_box (session.py:40-57) on the bytes form: Box.parse
then CencHeader decode of its init_data; a failure of either codec
escapes as an uncaught decode error. -/
def Session.parse_pssh_box (ext : Ext) (pssh : Bytes) : Except CdmError CencHeader :=
  match ext.parsePsshBox pssh with
  | none => .error .malformedPssh
  | some box =>
    match ext.parseCencHeader box.init_data with
    | none => .error .malformedPssh
    | some h => .ok h

/-- Session.__init__ (session.py:12-32).  Empty session_id or pssh fail
the `if not` guards with ValueError (spec: InvalidInput); cenc_header is
the verbatim bytes when raw, else the decoded box init_data. -/
def Session.init (ext : Ext) (session_id : Bytes) (pssh : Bytes) (raw offline : Bool) :
    Except CdmError Session :=
  if session_id = [] then .error .invalidInput
  else if pssh = [] then .error .invalidInput
  else
    match (if raw then Except.ok (CencVal.rawBytes pssh)
           else (Session.parse_pssh_box ext pssh).map CencVal.parsed) with
    | .error e => .error e
    | .ok ch =>
      .ok { sessionId := session_id
            pssh := pssh
            cencHeader := ch
            offline := offline
            raw := raw
            sessionKey := none
            derivedEnc := none
            derivedAuth1 := none
            derivedAuth2 := none
            licenseRequest := none
            signedLicense := none
            signedDeviceCertificate := none
            privacyMode := false
            keys := [] }

/-- Device type enum (device.py:33-35). -/
inductive DeviceType where
  | chrome
  | android
deriving DecidableEq, Repr

/-- The flags dict of a LocalDevice; only send_key_control_nonce is read. -/
structure Flags where
  send_key_control_nonce : Bool
deriving DecidableEq, Repr

/-- LocalDevice state relevant to the claims: device type, security
level, flags dict (optional), and the serialized client identification
blob.  The RSA private key itself lives inside the `Ext` primitives
(oaepDecrypt / pssSign are keyed with it). -/
structure Device where
  type : DeviceType
  securityLevel : Nat
  flags : Option Flags
  clientId : Bytes
deriving DecidableEq, Repr

/-- Models the contract of Python's random.randrange(lo, hi): a value in
[lo, hi), here produced from an explicit seed so runs are deterministic. -/
def randrange (lo hi seed : Nat) : Nat :=
  lo + seed % (hi - lo)

/-- The random inputs one get_license_challenge call draws: the nonce
seed, and the ephemeral AES key and IV of the privacy-mode branch. -/
structure Rng where
  nonceSeed : Nat
  cidAesKey : Bytes
  cidIv : Bytes
deriving DecidableEq, Repr

/-- The get_auth_keys closure of parse_license (device.py:261-266): for
several counters, the concatenation of the single-counter results; for
one counter i, AES-CMAC(k, byte(i) || b). -/
def get_auth_keys (cmac : Bytes → Bytes → Bytes) (i : List Nat) (k b : Bytes) : Bytes :=
  if 1 < i.length then (i.map fun x => cmac k (x :: b)).flatten
  else
    match i with
    | [x] => cmac k (x :: b)
    | _ => []

/-- LocalDevice.set_service_certificate (device.py:166-185): parse as
SignedMessage, parse its Msg as SignedDeviceCertificate (either decode
failure raises: spec MalformedCertificate), store it on the session and
set privacy_mode. -/
def LocalDevice.set_service_certificate (ext : Ext) (s : Session) (certificate : Bytes) :
    Except CdmError (Session × Bool) :=
  match ext.parseSignedMessage certificate with
  | none => .error .malformedCertificate
  | some sm =>
    match ext.parseSignedDeviceCertificate sm.msg with
    | none => .error .malformedCertificate
    | some sdc =>
      .ok ({ s with signedDeviceCertificate := some sdc, privacyMode := true }, true)

/-- The SignedLicenseRequest constructed by LocalDevice.get_license_challenge
(device.py:193-241): content id from the session's cenc header, license
type name OFFLINE/DEFAULT by the offline flag, request id = session id,
request type NEW, the current time, protocol version VERSION_2_1, the
optional key-control nonce randrange(1, 2^31), then either the
privacy-mode EncryptedClientIdentification or the plaintext client id,
and finally the RSA-PSS signature over the serialized message. -/
def build_license_request (ext : Ext) (dev : Device) (now : Nat) (rng : Rng) (s : Session) :
    Except CdmError SignedLicenseRequest :=
  let base : LicenseRequest :=
    { cencIdPssh := s.cencHeader
      licenseTypeName := if s.offline then "OFFLINE" else "DEFAULT"
      requestId := s.sessionId
      requestTypeName := "NEW"
      requestTime := now
      protocolVersionName := "VERSION_2_1"
      keyControlNonce :=
        match dev.flags with
        | some f => if f.send_key_control_nonce then some (randrange 1 (2 ^ 31) rng.nonceSeed) else none
        | none => none
      clientId := none
      encryptedClientId := none }
  let msgE : Except CdmError LicenseRequest :=
    if s.privacyMode then
      match s.signedDeviceCertificate with
      | none => .error .missingCertificate
      | some cert =>
        .ok { base with
              encryptedClientId := some
                { serviceId := cert.serviceId
                  serviceCertificateSerialNumber := cert.serialNumber
                  encryptedClientId := ext.aesCbcEncrypt rng.cidAesKey rng.cidIv (ext.pad16 dev.clientId)
                  encryptedClientIdIv := rng.cidIv
                  encryptedPrivacyKey := ext.oaepEncrypt cert.publicKey rng.cidAesKey } }
    else
      .ok { base with clientId := some dev.clientId }
  match msgE with
  | .error e => .error e
  | .ok msg => .ok { msg := msg, signature := ext.pssSign (ext.serializeLicenseRequest msg) }

/-- LocalDevice.get_license_challenge (device.py:187-245): build and sign
the request, store it on the session (overwriting any previous one), and
return the serialization of the stored request.  The `if not client_id` /
`if not private_key` guards at device.py:188-191 cannot fire: both
objects are constructed unconditionally in LocalDevice.__init__ and are
always truthy, so they are not modelled as failure paths. -/
def LocalDevice.get_license_challenge (ext : Ext) (dev : Device) (now : Nat) (rng : Rng) (s : Session) :
    Except CdmError (Session × Bytes) :=
  match build_license_request ext dev now rng s with
  | .error e => .error e
  | .ok req =>
    .ok ({ s with licenseRequest := some req }, ext.serializeSignedLicenseRequest req)

/-- The Key built from one KeyContainer in the parse_license loop
(device.py:285-297): permission names with value 1 collected only for
OPERATOR_SESSION containers, kid falling back to the utf-8 key-type name
when Id is empty, and the AES-CBC / PKCS5-unpad decryption of the wrapped
key under the derived enc key and the container's IV. -/
def keyFromContainer (ext : Ext) (encKey : Bytes) (kc : KeyContainer) : Key :=
  let keyType := kc.type.name
  let permissions :=
    if keyType = "OPERATOR_SESSION" then
      (kc.operatorSessionKeyPermissions.filter fun p => p.2 = 1).map Prod.fst
    else []
  { kid := if kc.id ≠ [] then kc.id else asciiBytes keyType
    type := keyType
    key := ext.unpad16 (ext.aesCbcDecrypt encKey kc.iv kc.key)
    permissions := permissions }

/-- LocalDevice.parse_license (device.py:247-299).  The result pairs the
session state as left by the call (Python mutates the session in place,
so a raise leaves the mutations made before it) with the outcome.
A fresh session has no license_request attribute at all (session.py:28
annotates without assigning), so the very access in the guard at
device.py:248 raises AttributeError; the intended ValueError cannot be
reached from a fresh session (and a stored request, being a protobuf
message object, is always truthy). -/
def LocalDevice.parse_license (ext : Ext) (s : Session) (license_res : Bytes) :
    Session × Except CdmError Bool :=
  match s.licenseRequest with
  | none => (s, .error .attributeError)
  | some req =>
    match ext.parseSignedLicense license_res with
    | none => (s, .error .malformedResponse)
    | some sl =>
      let licenseReqMsg := ext.serializeLicenseRequest req.msg
      let encKeyBase := asciiBytes "ENCRYPTION" ++ [0x00] ++ licenseReqMsg ++ [0x00, 0x00, 0x00, 0x80]
      let authKeyBase := asciiBytes "AUTHENTICATION" ++ [0x00] ++ licenseReqMsg ++ [0x00, 0x00, 0x02, 0x00]
      let sessionKey := ext.oaepDecrypt sl.sessionKey
      let encKey := get_auth_keys ext.cmac [1] sessionKey encKeyBase
      let auth1 := get_auth_keys ext.cmac [1, 2] sessionKey authKeyBase
      let auth2 := get_auth_keys ext.cmac [3, 4] sessionKey authKeyBase
      let s2 : Session :=
        { s with signedLicense := some sl
                 sessionKey := some sessionKey
                 derivedEnc := some encKey
                 derivedAuth1 := some auth1
                 derivedAuth2 := some auth2 }
      let licHmac := ext.hmacSHA256 auth1 (ext.serializeLicense sl.msg)
      if licHmac ≠ sl.signature then
        (s2, .error .signatureMismatch)
      else
        ({ s2 with keys := s2.keys ++ sl.msg.key.map (keyFromContainer ext encKey) }, .ok true)

/-- The orchestrator (cdm.py:14-101): the session dict (an insertion
ordered association list) and the configured device. -/
structure Cdm where
  sessions : List (Bytes × Session)
  device : Device

/-- Dict lookup in the session map. -/
def Cdm.lookup (c : Cdm) (sid : Bytes) : Option Session :=
  (c.sessions.find? fun p => p.1 = sid).map Prod.snd

/-- Dict store: replace in place if the id is present, else append. -/
def Cdm.store (c : Cdm) (sid : Bytes) (s : Session) : Cdm :=
  { c with sessions :=
      if (c.sessions.find? fun p => p.1 = sid).isSome then
        c.sessions.map fun p => if p.1 = sid then (sid, s) else p
      else c.sessions ++ [(sid, s)] }

/-- Cdm.is_session_open (cdm.py:64-65). -/
def Cdm.is_session_open (c : Cdm) (sid : Bytes) : Bool :=
  (c.lookup sid).isSome

/-- Python's uppercase hex digits of n ("%X" formatting). -/
def hexUpper (n : Nat) : List Char :=
  (Nat.toDigits 16 n).map Char.toUpper

/-- Python format spec "16X": the uppercase hex digits right-aligned in a
field of width 16, filled with spaces. -/
def format16X (n : Nat) : List Char :=
  let ds := hexUpper n
  List.replicate (16 - ds.length) ' ' ++ ds

/-- Cdm.create_session_id (cdm.py:90-101).  ANDROID: the 64-bit random
value formatted with "{hex:16X}" followed by the literal counter "01",
ASCII encoded; the `session_id.ljust(32, "0")` on cdm.py:97 discards its
result (str.ljust returns a new string), so no padding to 32 characters
happens.  CHROME: 16 random bytes. -/
def create_session_id (devType : DeviceType) (randBits64 : Nat) (randBytes16 : Bytes) : Bytes :=
  match devType with
  | .android => (format16X randBits64 ++ ['0', '1']).map Char.toNat
  | .chrome => randBytes16

/-- Cdm.open (cdm.py:36-51): create a session id for the device type,
construct a Session (a constructor failure propagates) and store it in
the session map under that id. -/
def Cdm.open_session (ext : Ext) (c : Cdm) (pssh : Bytes) (raw offline : Bool)
    (randBits64 : Nat) (randBytes16 : Bytes) : Except CdmError (Cdm × Bytes) :=
  let sid := create_session_id c.device.type randBits64 randBytes16
  match Session.init ext sid pssh raw offline with
  | .error e => .error e
  | .ok s => .ok (c.store sid s, sid)

/-- Cdm.set_service_certificate (cdm.py:67-70): UnknownSession guard then
device dispatch, the mutated session written back to the map. -/
def Cdm.set_service_certificate (ext : Ext) (c : Cdm) (sid : Bytes) (certificate : Bytes) :
    Except CdmError (Cdm × Bool) :=
  match c.lookup sid with
  | none => .error .unknownSession
  | some s =>
    match LocalDevice.set_service_certificate ext s certificate with
    | .error e => .error e
    | .ok (s2, r) => .ok (c.store sid s2, r)

/-- Cdm.get_license_challenge (cdm.py:72-75): UnknownSession guard then
device dispatch. -/
def Cdm.get_license_challenge (ext : Ext) (c : Cdm) (now : Nat) (rng : Rng) (sid : Bytes) :
    Except CdmError (Cdm × Bytes) :=
  match c.lookup sid with
  | none => .error .unknownSession
  | some s =>
    match LocalDevice.get_license_challenge ext c.device now rng s with
    | .error e => .error e
    | .ok (s2, b) => .ok (c.store sid s2, b)

/-- Cdm.parse_license (cdm.py:77-80): UnknownSession guard then device
dispatch; the session mutations made before a failure stay in the map. -/
def Cdm.parse_license (ext : Ext) (c : Cdm) (sid : Bytes) (license_res : Bytes) :
    Cdm × Except CdmError Bool :=
  match c.lookup sid with
  | none => (c, .error .unknownSession)
  | some s =>
    let (s2, r) := LocalDevice.parse_license ext s license_res
    (c.store sid s2, r)

/-- Cdm.get_keys (cdm.py:82-88): UnknownSession guard; with content_only
the session's keys filtered to type CONTENT, else all of them. -/
def Cdm.get_keys (c : Cdm) (sid : Bytes) (content_only : Bool) :
    Except CdmError (List Key) :=
  match c.lookup sid with
  | none => .error .unknownSession
  | some s =>
    .ok (if content_only then s.keys.filter (fun k => k.type = "CONTENT") else s.keys)

/-! Concrete instantiations of the uninterpreted primitives and small
fixture values, used by the witness theorems to evaluate the model on
closed inputs. -/

/-- A concrete `Ext` whose recomputed HMAC never matches the fixture
signature: parseSignedLicense yields signature [1, 2] while hmacSHA256
returns its message, [9]. -/
def extD : Ext :=
  { cmac := fun _ _ => List.replicate 16 0
    hmacSHA256 := fun _ m => m
    oaepDecrypt := id
    oaepEncrypt := fun _ b => b
    aesCbcDecrypt := fun _ _ ct => ct
    aesCbcEncrypt := fun _ _ pt => pt
    pad16 := id
    unpad16 := id
    pssSign := id
    serializeLicenseRequest := fun _ => [7]
    serializeSignedLicenseRequest := fun _ => [8]
    serializeLicense := fun _ => [9]
    parseSignedLicense := fun b => some { msg := { key := [] }, sessionKey := b, signature := [1, 2] }
    parseSignedMessage := fun b => some { msg := b }
    parseSignedDeviceCertificate := fun b =>
      some { serviceId := b, serialNumber := b, publicKey := b }
    parsePsshBox := fun b => some { init_data := b }
    parseCencHeader := fun b => some { data := b } }

/-- A concrete KeyContainer fixture. -/
def kcD : KeyContainer :=
  { id := [0xAA], type := .content, iv := [1], key := [5, 6],
    operatorSessionKeyPermissions := [] }

/-- A concrete `Ext` whose recomputed HMAC matches the fixture signature
([9] both ways) and whose fixture license carries one key container. -/
def extE : Ext :=
  { extD with
    parseSignedLicense := fun b =>
      some { msg := { key := [kcD] }, sessionKey := b, signature := [9] } }

/-- A concrete device: Chrome type, nonce flag set. -/
def devD : Device :=
  { type := .chrome, securityLevel := 3,
    flags := some { send_key_control_nonce := true }, clientId := [5] }

/-- Concrete randomness for one get_license_challenge call. -/
def rngD : Rng :=
  { nonceSeed := 0, cidAesKey := List.replicate 16 1, cidIv := List.replicate 16 2 }

/-- A concrete stored SignedLicenseRequest fixture. -/
def reqD : SignedLicenseRequest :=
  { msg :=
      { cencIdPssh := .rawBytes [2]
        licenseTypeName := "DEFAULT"
        requestId := [1]
        requestTypeName := "NEW"
        requestTime := 0
        protocolVersionName := "VERSION_2_1"
        keyControlNonce := none
        clientId := some [5]
        encryptedClientId := none }
    signature := [3] }

/-- A concrete session already holding a license request. -/
def sessD : Session :=
  { sessionId := [1]
    pssh := [2]
    cencHeader := .rawBytes [2]
    offline := false
    raw := true
    sessionKey := none
    derivedEnc := none
    derivedAuth1 := none
    derivedAuth2 := none
    licenseRequest := some reqD
    signedLicense := none
    signedDeviceCertificate := none
    privacyMode := false
    keys := [] }

/-- The SignedLicense value extD.parseSignedLicense yields on the empty
response. -/
def slD : SignedLicense :=
  { msg := { key := [] }, sessionKey := [], signature := [1, 2] }

/-- How get_auth_keys evaluates on a two-counter list. -/
theorem get_auth_keys_pair (cmac : Bytes → Bytes → Bytes) (x y : Nat) (k b : Bytes) :
    get_auth_keys cmac [x, y] k b = cmac k (x :: b) ++ cmac k (y :: b) := by
  simp [get_auth_keys]

/-- How get_auth_keys evaluates on a one-counter list. -/
theorem get_auth_keys_single (cmac : Bytes → Bytes → Bytes) (x : Nat) (k b : Bytes) :
    get_auth_keys cmac [x] k b = cmac k (x :: b) := by
  simp [get_auth_keys]

/-- C1: for every session key K obtained by RSA-OAEP-unwrapping the
response's SessionKey and M the serialized bytes of the session's stored
license request message, parse_license derives exactly
enc = AES-CMAC(K, 01 || "ENCRYPTION" || 00 || M || 00 00 00 80) (16 bytes),
auth_1 = CMAC(K, 01 || B) || CMAC(K, 02 || B) and
auth_2 = CMAC(K, 03 || B) || CMAC(K, 04 || B) (32 bytes each), with
B = "AUTHENTICATION" || 00 || M || 00 00 02 00. -/
theorem C1_parse_license_kdf (ext : Ext) (s : Session) (res : Bytes)
    (req : SignedLicenseRequest) (sl : SignedLicense)
    (hreq : s.licenseRequest = some req)
    (hparse : ext.parseSignedLicense res = some sl)
    (hcmac : ∀ k m, (ext.cmac k m).length = 16) :
    let M := ext.serializeLicenseRequest req.msg
    let K := ext.oaepDecrypt sl.sessionKey
    let B := asciiBytes "AUTHENTICATION" ++ [0x00] ++ M ++ [0x00, 0x00, 0x02, 0x00]
    let s2 := (LocalDevice.parse_license ext s res).1
    s2.derivedEnc =
      some (ext.cmac K ([0x01] ++ asciiBytes "ENCRYPTION" ++ [0x00] ++ M ++ [0x00, 0x00, 0x00, 0x80]))
    ∧ s2.derivedAuth1 = some (ext.cmac K ([0x01] ++ B) ++ ext.cmac K ([0x02] ++ B))
    ∧ s2.derivedAuth2 = some (ext.cmac K ([0x03] ++ B) ++ ext.cmac K ([0x04] ++ B))
    ∧ s2.derivedEnc.map List.length = some 16
    ∧ s2.derivedAuth1.map List.length = some 32
    ∧ s2.derivedAuth2.map List.length = some 32 := by
  intro M K B s2
  have hs2 : s2 = (LocalDevice.parse_license ext s res).1 := rfl
  simp only [LocalDevice.parse_license, hreq, hparse] at hs2
  have hfields :
      s2.derivedEnc = some (get_auth_keys ext.cmac [1] K
          (asciiBytes "ENCRYPTION" ++ [0x00] ++ M ++ [0x00, 0x00, 0x00, 0x80]))
      ∧ s2.derivedAuth1 = some (get_auth_keys ext.cmac [1, 2] K B)
      ∧ s2.derivedAuth2 = some (get_auth_keys ext.cmac [3, 4] K B) := by
    rw [hs2]
    split <;> exact ⟨rfl, rfl, rfl⟩
  obtain ⟨he, h1, h2⟩ := hfields
  rw [get_auth_keys_single] at he
  rw [get_auth_keys_pair] at h1 h2
  refine ⟨?_, ?_, ?_, ?_, ?_, ?_⟩
  · rw [he]; simp
  · rw [h1]; simp
  · rw [h2]; simp
  · rw [he]; simp [hcmac]
  · rw [h1]; simp [hcmac]
  · rw [h2]; simp [hcmac]

/-- C1 witness: the theorem applied to the concrete fixture. -/
theorem C1_parse_license_kdf_witness :
    sessD.licenseRequest = some reqD
    ∧ extD.parseSignedLicense [] = some slD
    ∧ (let M := extD.serializeLicenseRequest reqD.msg
       let K := extD.oaepDecrypt slD.sessionKey
       let B := asciiBytes "AUTHENTICATION" ++ [0x00] ++ M ++ [0x00, 0x00, 0x02, 0x00]
       let s2 := (LocalDevice.parse_license extD sessD []).1
       s2.derivedEnc =
         some (extD.cmac K ([0x01] ++ asciiBytes "ENCRYPTION" ++ [0x00] ++ M ++ [0x00, 0x00, 0x00, 0x80]))
       ∧ s2.derivedAuth1 = some (extD.cmac K ([0x01] ++ B) ++ extD.cmac K ([0x02] ++ B))
       ∧ s2.derivedAuth2 = some (extD.cmac K ([0x03] ++ B) ++ extD.cmac K ([0x04] ++ B))
       ∧ s2.derivedEnc.map List.length = some 16
       ∧ s2.derivedAuth1.map List.length = some 32
       ∧ s2.derivedAuth2.map List.length = some 32) :=
  ⟨rfl, rfl, C1_parse_license_kdf extD sessD [] reqD slD rfl rfl (fun _ _ => rfl)⟩

/-- C2: whenever the recomputed HMAC-SHA256 (keyed with auth_1, over the
serialized license message body) differs from the response Signature,
parse_license fails with the signature-mismatch error and appends zero
keys to the session. -/
theorem C2_signature_mismatch (ext : Ext) (s : Session) (res : Bytes)
    (req : SignedLicenseRequest) (sl : SignedLicense)
    (hreq : s.licenseRequest = some req)
    (hparse : ext.parseSignedLicense res = some sl)
    (hmismatch :
      ext.hmacSHA256
        (get_auth_keys ext.cmac [1, 2] (ext.oaepDecrypt sl.sessionKey)
          (asciiBytes "AUTHENTICATION" ++ [0x00] ++ ext.serializeLicenseRequest req.msg
            ++ [0x00, 0x00, 0x02, 0x00]))
        (ext.serializeLicense sl.msg) ≠ sl.signature) :
    (LocalDevice.parse_license ext s res).2 = .error .signatureMismatch
    ∧ (LocalDevice.parse_license ext s res).1.keys = s.keys := by
  simp only [LocalDevice.parse_license, hreq, hparse]
  rw [if_pos hmismatch]
  exact ⟨rfl, rfl⟩

/-- C2 witness: the fixture response whose signature ([1, 2]) differs from
the recomputed HMAC ([9]). -/
theorem C2_signature_mismatch_witness :
    sessD.licenseRequest = some reqD
    ∧ extD.parseSignedLicense [] = some slD
    ∧ (LocalDevice.parse_license extD sessD []).2 = .error .signatureMismatch
    ∧ (LocalDevice.parse_license extD sessD []).1.keys = sessD.keys :=
  ⟨rfl, rfl,
    (C2_signature_mismatch extD sessD [] reqD slD rfl rfl (by decide)).1,
    (C2_signature_mismatch extD sessD [] reqD slD rfl rfl (by decide)).2⟩

/-- C3 (code bug): on a session freshly built by Session.__init__ (no
get_license_challenge call), parse_license raises AttributeError - not the
ProtocolStateError the spec requires - because session.py:28 annotates
license_request without assigning it, so the guard at device.py:248
hits a missing attribute before it can raise its typed ValueError. -/
theorem C3_fresh_session_attribute_error :
    (Session.init extD [1] [2] true false).map
        (fun s => (LocalDevice.parse_license extD s []).2) = .ok (.error .attributeError)
    ∧ (Except.error .attributeError : Except CdmError Bool) ≠ .error .protocolStateError := by
  refine ⟨rfl, ?_⟩
  intro h
  injection h with h2
  exact CdmError.noConfusion h2

/-- Field content of a successfully built license request
(device.py:195-241): shared helper for the challenge claims. -/
theorem build_license_request_fields (ext : Ext) (dev : Device) (now : Nat) (rng : Rng)
    (s : Session) (req : SignedLicenseRequest)
    (hb : build_license_request ext dev now rng s = .ok req) :
    req.msg.cencIdPssh = s.cencHeader
    ∧ req.msg.licenseTypeName = (if s.offline then "OFFLINE" else "DEFAULT")
    ∧ req.msg.requestId = s.sessionId
    ∧ req.msg.requestTypeName = "NEW"
    ∧ req.msg.protocolVersionName = "VERSION_2_1"
    ∧ req.msg.requestTime = now
    ∧ (∀ f, dev.flags = some f → f.send_key_control_nonce = true →
        req.msg.keyControlNonce = some (randrange 1 (2 ^ 31) rng.nonceSeed)) := by
  by_cases hp : s.privacyMode
  · cases hc : s.signedDeviceCertificate with
    | none => simp [build_license_request, hp, hc] at hb
    | some cert =>
      simp only [build_license_request, hp, hc, if_pos] at hb
      injection hb with hb
      subst hb
      refine ⟨rfl, rfl, rfl, rfl, rfl, rfl, ?_⟩
      intro f hf hflag
      simp [hf, hflag]
  · simp only [build_license_request, hp, if_neg] at hb
    injection hb with hb
    subst hb
    refine ⟨rfl, rfl, rfl, rfl, rfl, rfl, ?_⟩
    intro f hf hflag
    simp [hf, hflag]

/-- randrange(1, 2^31) lands in [1, 2^31). -/
theorem randrange_nonce_range (seed : Nat) :
    1 ≤ randrange 1 (2 ^ 31) seed ∧ randrange 1 (2 ^ 31) seed < 2 ^ 31 := by
  unfold randrange
  constructor
  · omega
  · have h : seed % (2 ^ 31 - 1) < 2 ^ 31 - 1 := Nat.mod_lt _ (by norm_num)
    omega

/-- C4 counterexample: on a concrete non-offline session the stored
request's license type enum name is DEFAULT, not STREAMING; the license
type name STREAMING never occurs in device.py, which selects between
OFFLINE and DEFAULT (device.py:205). -/
theorem C4_counterexample :
    (LocalDevice.get_license_challenge extD devD 1000 rngD sessD).map
        (fun p => p.1.licenseRequest.map fun r => r.msg.licenseTypeName) = .ok (some "DEFAULT")
    ∧ "DEFAULT" ≠ "STREAMING" :=
  ⟨rfl, by decide⟩

/-- C4 (amended): the LicenseRequest built by get_license_challenge has
content id from the session's cenc header, license type OFFLINE when the
session is offline and DEFAULT (the vendor enum's name for a streaming
license) otherwise, request_id = session id, request type NEW, protocol
version 2.1 (VERSION_2_1) and the current Unix timestamp; with the
device's send_key_control_nonce flag set, its KeyControlNonce is an
integer n with 1 <= n < 2^31. -/
theorem C4_license_request_fields (ext : Ext) (dev : Device) (now : Nat) (rng : Rng)
    (s s2 : Session) (b : Bytes)
    (hok : LocalDevice.get_license_challenge ext dev now rng s = .ok (s2, b)) :
    ∃ req : SignedLicenseRequest,
      s2.licenseRequest = some req
      ∧ req.msg.cencIdPssh = s.cencHeader
      ∧ req.msg.licenseTypeName = (if s.offline then "OFFLINE" else "DEFAULT")
      ∧ req.msg.requestId = s.sessionId
      ∧ req.msg.requestTypeName = "NEW"
      ∧ req.msg.protocolVersionName = "VERSION_2_1"
      ∧ req.msg.requestTime = now
      ∧ (∀ f, dev.flags = some f → f.send_key_control_nonce = true →
          ∃ n, req.msg.keyControlNonce = some n ∧ 1 ≤ n ∧ n < 2 ^ 31) := by
  cases hb : build_license_request ext dev now rng s with
  | error e => simp [LocalDevice.get_license_challenge, hb] at hok
  | ok req =>
    refine ⟨req, ?_, ?_⟩
    · simp only [LocalDevice.get_license_challenge, hb] at hok
      injection hok with hok
      have := congrArg Prod.fst hok
      simp at this
      rw [← this]
    · obtain ⟨h1, h2, h3, h4, h5, h6, h7⟩ :=
        build_license_request_fields ext dev now rng s req hb
      refine ⟨h1, h2, h3, h4, h5, h6, ?_⟩
      intro f hf hflag
      exact ⟨randrange 1 (2 ^ 31) rng.nonceSeed, h7 f hf hflag,
        (randrange_nonce_range rng.nonceSeed).1, (randrange_nonce_range rng.nonceSeed).2⟩

/-- The request the fixture challenge call builds at time 5. -/
def reqT5 : SignedLicenseRequest :=
  { msg :=
      { cencIdPssh := .rawBytes [2]
        licenseTypeName := "DEFAULT"
        requestId := [1]
        requestTypeName := "NEW"
        requestTime := 5
        protocolVersionName := "VERSION_2_1"
        keyControlNonce := some (randrange 1 (2 ^ 31) 0)
        clientId := some [5]
        encryptedClientId := none }
    signature := [7] }

/-- The request the fixture challenge call builds at time 6. -/
def reqT6 : SignedLicenseRequest :=
  { reqT5 with msg := { reqT5.msg with requestTime := 6 } }

/-- C4 witness: the amended theorem applied at the concrete fixture call. -/
theorem C4_license_request_fields_witness :
    LocalDevice.get_license_challenge extD devD 5 rngD sessD
      = .ok ({ sessD with licenseRequest := some reqT5 }, [8])
    ∧ (∃ req : SignedLicenseRequest,
        ({ sessD with licenseRequest := some reqT5 } : Session).licenseRequest = some req
        ∧ req.msg.cencIdPssh = sessD.cencHeader
        ∧ req.msg.licenseTypeName = (if sessD.offline then "OFFLINE" else "DEFAULT")
        ∧ req.msg.requestId = sessD.sessionId
        ∧ req.msg.requestTypeName = "NEW"
        ∧ req.msg.protocolVersionName = "VERSION_2_1"
        ∧ req.msg.requestTime = 5
        ∧ (∀ f, devD.flags = some f → f.send_key_control_nonce = true →
            ∃ n, req.msg.keyControlNonce = some n ∧ 1 ≤ n ∧ n < 2 ^ 31)) :=
  ⟨rfl, C4_license_request_fields extD devD 5 rngD sessD _ [8] rfl⟩

/-- C5: a Session holds at most one license_request (an Option in the
state); two get_license_challenge calls without an intervening
parse_license leave exactly the request built by the second call stored
(the second state is the first with its request replaced), and each call
returns the serialization of the request stored at that moment. -/
theorem C5_single_outstanding_request (ext : Ext) (dev : Device)
    (now1 now2 : Nat) (rng1 rng2 : Rng) (s s1 s2 : Session) (b1 b2 : Bytes)
    (h1 : LocalDevice.get_license_challenge ext dev now1 rng1 s = .ok (s1, b1))
    (h2 : LocalDevice.get_license_challenge ext dev now2 rng2 s1 = .ok (s2, b2)) :
    (∃ req1, build_license_request ext dev now1 rng1 s = .ok req1
        ∧ s1.licenseRequest = some req1
        ∧ b1 = ext.serializeSignedLicenseRequest req1)
    ∧ (∃ req2, build_license_request ext dev now2 rng2 s1 = .ok req2
        ∧ s2.licenseRequest = some req2
        ∧ s2 = { s1 with licenseRequest := some req2 }
        ∧ b2 = ext.serializeSignedLicenseRequest req2) := by
  constructor
  · cases hb : build_license_request ext dev now1 rng1 s with
    | error e => simp [LocalDevice.get_license_challenge, hb] at h1
    | ok req1 =>
      simp only [LocalDevice.get_license_challenge, hb] at h1
      injection h1 with h1
      have hfst := congrArg Prod.fst h1
      have hsnd := congrArg Prod.snd h1
      simp at hfst hsnd
      exact ⟨req1, rfl, by rw [← hfst], by rw [hsnd]⟩
  · cases hb : build_license_request ext dev now2 rng2 s1 with
    | error e => simp [LocalDevice.get_license_challenge, hb] at h2
    | ok req2 =>
      simp only [LocalDevice.get_license_challenge, hb] at h2
      injection h2 with h2
      have hfst := congrArg Prod.fst h2
      have hsnd := congrArg Prod.snd h2
      simp at hfst hsnd
      exact ⟨req2, rfl, by rw [← hfst], by rw [← hfst], by rw [hsnd]⟩

/-- C5 witness: two concrete challenge calls at times 5 and 6; the stored
request after the second is the one built at time 6. -/
theorem C5_single_outstanding_request_witness :
    (∃ req1, build_license_request extD devD 5 rngD sessD = .ok req1
        ∧ ({ sessD with licenseRequest := some reqT5 } : Session).licenseRequest = some req1
        ∧ [8] = extD.serializeSignedLicenseRequest req1)
    ∧ (∃ req2, build_license_request extD devD 6 rngD { sessD with licenseRequest := some reqT5 } = .ok req2
        ∧ ({ sessD with licenseRequest := some reqT6 } : Session).licenseRequest = some req2
        ∧ ({ sessD with licenseRequest := some reqT6 } : Session)
            = { { sessD with licenseRequest := some reqT5 } with licenseRequest := some req2 }
        ∧ [8] = extD.serializeSignedLicenseRequest req2) :=
  C5_single_outstanding_request extD devD 5 6 rngD rngD sessD
    { sessD with licenseRequest := some reqT5 }
    { sessD with licenseRequest := some reqT6 } [8] [8] rfl rfl

/-- C6: on a successfully verified response, parse_license appends one Key
per KeyContainer, in container order, whose kid is the container Id when
non-empty and else the utf-8 key-type name, whose key is the AES-CBC
decryption (enc key, per-key IV, PKCS5-unpadded) of the wrapped key, and
whose permission list is non-empty only for OPERATOR_SESSION containers,
where it holds exactly the permission flags of value 1. -/
theorem C6_key_extraction (ext : Ext) (s : Session) (res : Bytes)
    (req : SignedLicenseRequest) (sl : SignedLicense)
    (hreq : s.licenseRequest = some req)
    (hparse : ext.parseSignedLicense res = some sl)
    (hmatch :
      ext.hmacSHA256
        (get_auth_keys ext.cmac [1, 2] (ext.oaepDecrypt sl.sessionKey)
          (asciiBytes "AUTHENTICATION" ++ [0x00] ++ ext.serializeLicenseRequest req.msg
            ++ [0x00, 0x00, 0x02, 0x00]))
        (ext.serializeLicense sl.msg) = sl.signature) :
    let encKey := get_auth_keys ext.cmac [1] (ext.oaepDecrypt sl.sessionKey)
        (asciiBytes "ENCRYPTION" ++ [0x00] ++ ext.serializeLicenseRequest req.msg
          ++ [0x00, 0x00, 0x00, 0x80])
    (LocalDevice.parse_license ext s res).2 = .ok true
    ∧ (LocalDevice.parse_license ext s res).1.keys
        = s.keys ++ sl.msg.key.map (keyFromContainer ext encKey)
    ∧ ∀ kc ∈ sl.msg.key,
        (keyFromContainer ext encKey kc).kid
            = (if kc.id ≠ [] then kc.id else asciiBytes kc.type.name)
        ∧ (keyFromContainer ext encKey kc).type = kc.type.name
        ∧ (keyFromContainer ext encKey kc).key
            = ext.unpad16 (ext.aesCbcDecrypt encKey kc.iv kc.key)
        ∧ ((keyFromContainer ext encKey kc).permissions ≠ [] → kc.type = .operatorSession)
        ∧ (kc.type = .operatorSession →
            (keyFromContainer ext encKey kc).permissions
              = (kc.operatorSessionKeyPermissions.filter fun p => p.2 = 1).map Prod.fst) := by
  intro encKey
  have hmm : ¬ (ext.hmacSHA256
      (get_auth_keys ext.cmac [1, 2] (ext.oaepDecrypt sl.sessionKey)
        (asciiBytes "AUTHENTICATION" ++ [0x00] ++ ext.serializeLicenseRequest req.msg
          ++ [0x00, 0x00, 0x02, 0x00]))
      (ext.serializeLicense sl.msg) ≠ sl.signature) := fun h => h hmatch
  refine ⟨?_, ?_, ?_⟩
  · simp only [LocalDevice.parse_license, hreq, hparse]
    rw [if_neg hmm]
  · simp only [LocalDevice.parse_license, hreq, hparse]
    rw [if_neg hmm]
  · intro kc _
    cases htype : kc.type <;>
      simp [keyFromContainer, KeyType.name, htype]

/-- The SignedLicense extE.parseSignedLicense yields on response [4]. -/
def slE : SignedLicense :=
  { msg := { key := [kcD] }, sessionKey := [4], signature := [9] }

/-- C6 witness: a concrete verified response with one CONTENT container. -/
theorem C6_key_extraction_witness :
    sessD.licenseRequest = some reqD
    ∧ extE.parseSignedLicense [4] = some slE
    ∧ (let encKey := get_auth_keys extE.cmac [1] (extE.oaepDecrypt slE.sessionKey)
          (asciiBytes "ENCRYPTION" ++ [0x00] ++ extE.serializeLicenseRequest reqD.msg
            ++ [0x00, 0x00, 0x00, 0x80])
       (LocalDevice.parse_license extE sessD [4]).2 = .ok true
       ∧ (LocalDevice.parse_license extE sessD [4]).1.keys
           = sessD.keys ++ slE.msg.key.map (keyFromContainer extE encKey)
       ∧ ∀ kc ∈ slE.msg.key,
           (keyFromContainer extE encKey kc).kid
               = (if kc.id ≠ [] then kc.id else asciiBytes kc.type.name)
           ∧ (keyFromContainer extE encKey kc).type = kc.type.name
           ∧ (keyFromContainer extE encKey kc).key
               = extE.unpad16 (extE.aesCbcDecrypt encKey kc.iv kc.key)
           ∧ ((keyFromContainer extE encKey kc).permissions ≠ [] → kc.type = .operatorSession)
           ∧ (kc.type = .operatorSession →
               (keyFromContainer extE encKey kc).permissions
                 = (kc.operatorSessionKeyPermissions.filter fun p => p.2 = 1).map Prod.fst)) :=
  ⟨rfl, rfl, C6_key_extraction extE sessD [4] reqD slE rfl rfl (by decide)⟩

/-- C7: get_keys on an open session returns the accumulated keys filtered
to CONTENT type (content_only) or all of them, in stored order; on an
unknown session id get_keys, set_service_certificate,
get_license_challenge and parse_license all fail with UnknownSession. -/
theorem C7_get_keys_dispatch (c : Cdm) (sid sid2 : Bytes) (s : Session)
    (h : c.lookup sid = some s) (h2 : c.lookup sid2 = none) :
    c.get_keys sid true = .ok (s.keys.filter fun k => k.type = "CONTENT")
    ∧ c.get_keys sid false = .ok s.keys
    ∧ c.get_keys sid2 true = .error .unknownSession
    ∧ c.get_keys sid2 false = .error .unknownSession
    ∧ (∀ ext cert, Cdm.set_service_certificate ext c sid2 cert = .error .unknownSession)
    ∧ (∀ ext now rng, Cdm.get_license_challenge ext c now rng sid2 = .error .unknownSession)
    ∧ (∀ ext res, Cdm.parse_license ext c sid2 res = (c, .error .unknownSession)) := by
  refine ⟨?_, ?_, ?_, ?_, ?_, ?_, ?_⟩
  · simp [Cdm.get_keys, h]
  · simp [Cdm.get_keys, h]
  · simp [Cdm.get_keys, h2]
  · simp [Cdm.get_keys, h2]
  · intro ext cert; simp [Cdm.set_service_certificate, h2]
  · intro ext now rng; simp [Cdm.get_license_challenge, h2]
  · intro ext res; simp [Cdm.parse_license, h2]

/-- A CONTENT-type fixture key. -/
def keyC : Key := { kid := [1], type := "CONTENT", key := [2], permissions := [] }

/-- A SIGNING-type fixture key. -/
def keyS : Key := { kid := [3], type := "SIGNING", key := [4], permissions := [] }

/-- A session with one CONTENT and one SIGNING key accumulated. -/
def sessK : Session := { sessD with keys := [keyC, keyS] }

/-- A one-session orchestrator fixture. -/
def cdmD : Cdm := { sessions := [([1], sessK)], device := devD }

/-- C7 witness: the concrete orchestrator with an open session [1] and
the unknown id [9]. -/
theorem C7_get_keys_dispatch_witness :
    cdmD.lookup [1] = some sessK
    ∧ cdmD.lookup [9] = none
    ∧ cdmD.get_keys [1] true = .ok [keyC]
    ∧ (cdmD.get_keys [1] true = .ok (sessK.keys.filter fun k => k.type = "CONTENT")
       ∧ cdmD.get_keys [1] false = .ok sessK.keys
       ∧ cdmD.get_keys [9] true = .error .unknownSession
       ∧ cdmD.get_keys [9] false = .error .unknownSession
       ∧ (∀ ext cert, Cdm.set_service_certificate ext cdmD [9] cert = .error .unknownSession)
       ∧ (∀ ext now rng, Cdm.get_license_challenge ext cdmD now rng [9] = .error .unknownSession)
       ∧ (∀ ext res, Cdm.parse_license ext cdmD [9] res = (cdmD, .error .unknownSession))) :=
  ⟨rfl, rfl, rfl, C7_get_keys_dispatch cdmD [1] [9] sessK rfl rfl⟩

/-- C8: Session construction fails with InvalidInput exactly when the
session id or the pssh is empty; on success the cenc header is the pssh
bytes verbatim when raw, and otherwise the CencHeader decoded from the
pssh box's init_data. -/
theorem C8_session_init_iff (ext : Ext) (sid pssh : Bytes) (raw offline : Bool) :
    (Session.init ext sid pssh raw offline = .error .invalidInput ↔ (sid = [] ∨ pssh = []))
    ∧ (∀ s, Session.init ext sid pssh raw offline = .ok s →
        s.pssh = pssh
        ∧ (raw = true → s.cencHeader = .rawBytes pssh)
        ∧ (raw = false → ∃ box h, ext.parsePsshBox pssh = some box
            ∧ ext.parseCencHeader box.init_data = some h
            ∧ s.cencHeader = .parsed h)) := by
  by_cases hsid : sid = []
  · exact ⟨by simp [Session.init, hsid], fun s hs => by simp [Session.init, hsid] at hs⟩
  · by_cases hp : pssh = []
    · exact ⟨by simp [Session.init, hsid, hp], fun s hs => by simp [Session.init, hsid, hp] at hs⟩
    · cases hraw : raw
      · cases hbox : ext.parsePsshBox pssh with
        | none =>
          constructor
          · simp [Session.init, Session.parse_pssh_box, Except.map, hsid, hp, hbox]
          · intro s hs
            simp [Session.init, Session.parse_pssh_box, Except.map, hsid, hp, hbox] at hs
        | some box =>
          cases hch : ext.parseCencHeader box.init_data with
          | none =>
            constructor
            · simp [Session.init, Session.parse_pssh_box, Except.map, hsid, hp, hbox, hch]
            · intro s hs
              simp [Session.init, Session.parse_pssh_box, Except.map, hsid, hp, hbox, hch] at hs
          | some hdr =>
            constructor
            · simp [Session.init, Session.parse_pssh_box, Except.map, hsid, hp, hbox, hch]
            · intro s hs
              simp [Session.init, Session.parse_pssh_box, Except.map, hsid, hp, hbox, hch] at hs
              subst hs
              refine ⟨rfl, ?_, ?_⟩
              · intro h; cases h
              · intro h2; exact ⟨box, hdr, rfl, hch, rfl⟩
      · constructor
        · simp [Session.init, hsid, hp]
        · intro s hs
          simp [Session.init, hsid, hp] at hs
          subst hs
          refine ⟨rfl, ?_, ?_⟩
          · intro h2; rfl
          · intro h; cases h

/-- C8 witness: empty session id fails with InvalidInput; a raw session
on pssh [2] stores those bytes verbatim as its cenc header. -/
theorem C8_session_init_iff_witness :
    (Session.init extD [] [2] true false = .error .invalidInput)
    ∧ (Session.init extD [1] [2] true false
        = .ok { sessionId := [1], pssh := [2], cencHeader := .rawBytes [2],
                offline := false, raw := true, sessionKey := none, derivedEnc := none,
                derivedAuth1 := none, derivedAuth2 := none, licenseRequest := none,
                signedLicense := none, signedDeviceCertificate := none,
                privacyMode := false, keys := [] })
    ∧ ({ sessionId := [1], pssh := [2], cencHeader := .rawBytes [2],
         offline := false, raw := true, sessionKey := none, derivedEnc := none,
         derivedAuth1 := none, derivedAuth2 := none, licenseRequest := none,
         signedLicense := none, signedDeviceCertificate := none,
         privacyMode := false, keys := [] } : Session).cencHeader = .rawBytes [2] :=
  ⟨(C8_session_init_iff extD [] [2] true false).1.mpr (Or.inl rfl),
   rfl,
   ((C8_session_init_iff extD [1] [2] true false).2 _ rfl).2.1 rfl⟩

/-- C9 (code bug): for an ANDROID device create_session_id returns the
18-character ASCII string of the width-16 formatted random value followed
by the literal "01"; the `session_id.ljust(32, "0")` on cdm.py:97 discards
its result, so the id is NOT padded to the 32-character framing width the
adjacent comment ("pad to 16 bytes (32 chars)") promises. -/
theorem C9_android_session_id_not_padded :
    create_session_id .android 0 []
      = (List.replicate 15 ' ' ++ ['0', '0', '1']).map Char.toNat
    ∧ (create_session_id .android 0 []).length = 18
    ∧ (create_session_id .android 0 []).length ≠ 32 := by
  refine ⟨by decide, by decide, by decide⟩

/-- The SignedLicense extD.parseSignedLicense yields on response [3]. -/
def slD3 : SignedLicense :=
  { msg := { key := [] }, sessionKey := [3], signature := [1, 2] }

/-- C10: a signature-mismatch failure of parse_license is not atomic on
the session: signed_license, session_key and the three derived keys have
already been overwritten with values computed from the rejected response
before the HMAC comparison runs; only the keys list (and the stored
request) is unchanged. -/
theorem C10_mismatch_overwrites_state (ext : Ext) (s : Session) (res : Bytes)
    (req : SignedLicenseRequest) (sl : SignedLicense)
    (hreq : s.licenseRequest = some req)
    (hparse : ext.parseSignedLicense res = some sl)
    (hmismatch :
      ext.hmacSHA256
        (get_auth_keys ext.cmac [1, 2] (ext.oaepDecrypt sl.sessionKey)
          (asciiBytes "AUTHENTICATION" ++ [0x00] ++ ext.serializeLicenseRequest req.msg
            ++ [0x00, 0x00, 0x02, 0x00]))
        (ext.serializeLicense sl.msg) ≠ sl.signature) :
    let M := ext.serializeLicenseRequest req.msg
    let K := ext.oaepDecrypt sl.sessionKey
    let authB := asciiBytes "AUTHENTICATION" ++ [0x00] ++ M ++ [0x00, 0x00, 0x02, 0x00]
    (LocalDevice.parse_license ext s res).2 = .error .signatureMismatch
    ∧ (LocalDevice.parse_license ext s res).1.signedLicense = some sl
    ∧ (LocalDevice.parse_license ext s res).1.sessionKey = some K
    ∧ (LocalDevice.parse_license ext s res).1.derivedEnc
        = some (get_auth_keys ext.cmac [1] K
            (asciiBytes "ENCRYPTION" ++ [0x00] ++ M ++ [0x00, 0x00, 0x00, 0x80]))
    ∧ (LocalDevice.parse_license ext s res).1.derivedAuth1
        = some (get_auth_keys ext.cmac [1, 2] K authB)
    ∧ (LocalDevice.parse_license ext s res).1.derivedAuth2
        = some (get_auth_keys ext.cmac [3, 4] K authB)
    ∧ (LocalDevice.parse_license ext s res).1.keys = s.keys
    ∧ (LocalDevice.parse_license ext s res).1.licenseRequest = s.licenseRequest := by
  intro M K authB
  simp only [LocalDevice.parse_license, hreq, hparse]
  rw [if_pos hmismatch]
  exact ⟨rfl, rfl, rfl, rfl, rfl, rfl, rfl, rfl⟩

/-- C10 witness: the rejected concrete response [3] leaves the overwritten
intermediate state behind while the keys list stays empty. -/
theorem C10_mismatch_overwrites_state_witness :
    sessD.licenseRequest = some reqD
    ∧ extD.parseSignedLicense [3] = some slD3
    ∧ (let M := extD.serializeLicenseRequest reqD.msg
       let K := extD.oaepDecrypt slD3.sessionKey
       let authB := asciiBytes "AUTHENTICATION" ++ [0x00] ++ M ++ [0x00, 0x00, 0x02, 0x00]
       (LocalDevice.parse_license extD sessD [3]).2 = .error .signatureMismatch
       ∧ (LocalDevice.parse_license extD sessD [3]).1.signedLicense = some slD3
       ∧ (LocalDevice.parse_license extD sessD [3]).1.sessionKey = some K
       ∧ (LocalDevice.parse_license extD sessD [3]).1.derivedEnc
           = some (get_auth_keys extD.cmac [1] K
               (asciiBytes "ENCRYPTION" ++ [0x00] ++ M ++ [0x00, 0x00, 0x00, 0x80]))
       ∧ (LocalDevice.parse_license extD sessD [3]).1.derivedAuth1
           = some (get_auth_keys extD.cmac [1, 2] K authB)
       ∧ (LocalDevice.parse_license extD sessD [3]).1.derivedAuth2
           = some (get_auth_keys extD.cmac [3, 4] K authB)
       ∧ (LocalDevice.parse_license extD sessD [3]).1.keys = sessD.keys
       ∧ (LocalDevice.parse_license extD sessD [3]).1.licenseRequest = sessD.licenseRequest) :=
  ⟨rfl, rfl, C10_mismatch_overwrites_state extD sessD [3] reqD slD3 rfl rfl (by decide)⟩

end VT
